import Mathlib

/-!
Shallow embedding of `src/modules/privacy/privacy.cpp` (the Waybar privacy
module): node classification into per-category buckets, aggregate flags, the
debounced container-visibility logic of `Privacy::update`, and the
configuration handling of the `Privacy` constructor. Theorems below settle
the specification claims C1-C10 against these definitions.
-/

namespace Privacy

/-- Category tag of a backend node, mirroring the
`util::PipewireBackend::PRIVACY_NODE_TYPE_*` enum used by `privacy.cpp`. -/
inductive PrivacyNodeType where
  | PRIVACY_NODE_TYPE_NONE
  | PRIVACY_NODE_TYPE_VIDEO_INPUT
  | PRIVACY_NODE_TYPE_AUDIO_INPUT
  | PRIVACY_NODE_TYPE_AUDIO_OUTPUT
deriving DecidableEq, Repr

/-- Lifecycle state of a backend node, mirroring the pipewire `pw_node_state`
enum (`PW_NODE_STATE_*`) that `Privacy::onPrivacyNodesChanged` switches on. -/
inductive PwNodeState where
  | PW_NODE_STATE_ERROR
  | PW_NODE_STATE_CREATING
  | PW_NODE_STATE_SUSPENDED
  | PW_NODE_STATE_IDLE
  | PW_NODE_STATE_RUNNING
deriving DecidableEq, Repr

/-- A backend-owned node record (`PrivacyNodeInfo`): orderable identity plus the
two fields `privacy.cpp` reads (`state`, `type`). -/
structure PrivacyNodeInfo where
  id : Nat
  state : PwNodeState
  type : PrivacyNodeType
deriving DecidableEq, Repr

/-- The three per-category member vectors of `Privacy`
(`nodes_screenshare`, `nodes_audio_in`, `nodes_audio_out`). -/
structure Buckets where
  nodes_screenshare : List PrivacyNodeInfo
  nodes_audio_in : List PrivacyNodeInfo
  nodes_audio_out : List PrivacyNodeInfo
deriving DecidableEq, Repr

/-- Empty bucket set (the state right after the three `clear()` calls). -/
def bucketsEmpty : Buckets := ⟨[], [], []⟩

/-- One iteration of the rebuild loop of `Privacy::onPrivacyNodesChanged`:
switch on `node.second->state`; only `PW_NODE_STATE_RUNNING` nodes are
dispatched on `node.second->type` and pushed onto the matching vector;
`PRIVACY_NODE_TYPE_NONE` falls through with no push; every other lifecycle
state hits `default: break`. -/
def processNode (b : Buckets) (node : PrivacyNodeInfo) : Buckets :=
  match node.state with
  | PwNodeState.PW_NODE_STATE_RUNNING =>
    match node.type with
    | PrivacyNodeType.PRIVACY_NODE_TYPE_VIDEO_INPUT =>
        { b with nodes_screenshare := b.nodes_screenshare ++ [node] }
    | PrivacyNodeType.PRIVACY_NODE_TYPE_AUDIO_INPUT =>
        { b with nodes_audio_in := b.nodes_audio_in ++ [node] }
    | PrivacyNodeType.PRIVACY_NODE_TYPE_AUDIO_OUTPUT =>
        { b with nodes_audio_out := b.nodes_audio_out ++ [node] }
    | PrivacyNodeType.PRIVACY_NODE_TYPE_NONE => b
  | _ => b

/-- `Privacy::onPrivacyNodesChanged` (lines 90-120): clears the three member
vectors (so the prior contents `_prior` are discarded), then folds the rebuild
loop over the backend snapshot `backend->privacy_nodes` in iteration order. -/
def onPrivacyNodesChanged (_prior : Buckets) (privacy_nodes : List PrivacyNodeInfo) : Buckets :=
  privacy_nodes.foldl processNode bucketsEmpty

/-- The three booleans computed at the top of `Privacy::update`
(`screenshare`, `audio_in`, `audio_out`), one per category bucket. -/
structure AggregateFlags where
  screenshare : Bool
  audio_in : Bool
  audio_out : Bool
deriving DecidableEq, Repr

/-- Flag snapshot read: `!nodes_screenshare.empty()` etc. (update lines 124-126,
and the same three reads inside the timeout lambda, lines 162-164). -/
def snapshot_flags (b : Buckets) : AggregateFlags :=
  { screenshare := !b.nodes_screenshare.isEmpty
    audio_in := !b.nodes_audio_in.isEmpty
    audio_out := !b.nodes_audio_out.isEmpty }

/-- `bool is_visible = screenshare || audio_in || audio_out;` (line 148). -/
def is_visible (f : AggregateFlags) : Bool :=
  f.screenshare || f.audio_in || f.audio_out

/-- Boolean membership test used to characterise the rebuilt buckets: a node
belongs to the bucket of category `ty` iff it is `RUNNING` and of type `ty`. -/
def isRunningOfType (ty : PrivacyNodeType) (n : PrivacyNodeInfo) : Bool :=
  n.state == PwNodeState.PW_NODE_STATE_RUNNING && n.type == ty

/-! ### Configuration handling (`Privacy::Privacy`, lines 51-81) -/

/-- Minimal model of the `Json::Value` shapes the constructor inspects. -/
inductive Json where
  | null
  | boolVal (b : Bool)
  | intVal (n : Int)
  | strVal (s : String)
  | arrVal (elems : List Json)
  | objVal (fields : List (String × Json))

/-- `Json::Value::isArray()`. -/
def Json.isArray : Json → Bool
  | Json.arrVal _ => true
  | _ => false

/-- `Json::Value::isObject()`. -/
def Json.isObject : Json → Bool
  | Json.objVal _ => true
  | _ => false

/-- `Json::Value::isString()`. -/
def Json.isString : Json → Bool
  | Json.strVal _ => true
  | _ => false

/-- `Json::Value::size()` as used on the `modules` array. -/
def Json.size : Json → Nat
  | Json.arrVal xs => xs.length
  | _ => 0

/-- Element list of an array value (the values the `modules[i]` loop visits). -/
def Json.elems : Json → List Json
  | Json.arrVal xs => xs
  | _ => []

/-- Const `operator[]` on an object: the member if present, otherwise null. -/
def Json.get (j : Json) (key : String) : Json :=
  match j with
  | Json.objVal fields =>
    match fields.lookup key with
    | some v => v
    | none => Json.null
  | _ => Json.null

/-- `Json::Value::asString()` under an `isString()` guard. -/
def Json.asString : Json → String
  | Json.strVal s => s
  | _ => ""

/-- The `"type"` member key. -/
def typeKey : String := "type"

/-- The `"screenshare"` module type string. -/
def screenshareStr : String := "screenshare"

/-- The `"audio-in"` module type string. -/
def audioInStr : String := "audio-in"

/-- The `"audio-out"` module type string. -/
def audioOutStr : String := "audio-out"

/-- The default module list built at lines 53-60: two objects with `type`
set to `"screenshare"` and `"audio-in"`. -/
def defaultModules : List Json :=
  [Json.objVal [(typeKey, Json.strVal screenshareStr)],
   Json.objVal [(typeKey, Json.strVal audioInStr)]]

/-- Lines 51-60: the list of module configs the constructor loop iterates:
the configured `modules` array unless it is not an array or has size 0, in
which case the default list is substituted. -/
def selectedModules (modules : Json) : List Json :=
  if !modules.isArray || modules.size == 0 then defaultModules
  else modules.elems

/-- One iteration of the constructor loop (lines 61-81): skip entries that are
not objects or whose `type` member is not a string; otherwise construct a
`PrivacyItem` for a recognised type string, and skip unrecognised strings. -/
def moduleItem (module_config : Json) : Option PrivacyNodeType :=
  if !module_config.isObject || !(module_config.get typeKey).isString then none
  else
    let ty := (module_config.get typeKey).asString
    if ty = screenshareStr then some PrivacyNodeType.PRIVACY_NODE_TYPE_VIDEO_INPUT
    else if ty = audioInStr then some PrivacyNodeType.PRIVACY_NODE_TYPE_AUDIO_INPUT
    else if ty = audioOutStr then some PrivacyNodeType.PRIVACY_NODE_TYPE_AUDIO_OUTPUT
    else none

/-- The `privacy_type`s of the `PrivacyItem` children added to `box_` by the
constructor, in order, for a given `config_["modules"]` value. -/
def constructedItems (modules : Json) : List PrivacyNodeType :=
  (selectedModules modules).filterMap moduleItem

/-! ### Visibility debouncer (`Privacy::update` lines 147-172 and the
timeout lambda lines 160-168) -/

/-- A connected `Glib::signal_timeout()` source: a model identity (standing in
for the sigc connection / GSource) plus its fire deadline
(connect time + `transition_duration`). -/
structure TimeoutConn where
  id : Nat
  deadline : Nat
deriving DecidableEq, Repr

/-- Container-visibility state owned by `Privacy`: the `visible` property of
`event_box_`, the `visibility_conn` handle (`none` when disconnected), and a
fresh-id counter used to model creation of new timeout sources. -/
structure VisState where
  vis : Bool
  visibility_conn : Option TimeoutConn
  nextId : Nat
deriving DecidableEq, Repr

/-- A call into the presentation layer: `PrivacyItem::set_in_use` per category
(spec: SetCategoryActive) or `event_box_.set_visible` (spec:
SetContainerVisible). -/
inductive Emission where
  | SetCategoryActive (category : PrivacyNodeType) (active : Bool)
  | SetContainerVisible (visible : Bool)
deriving DecidableEq, Repr

/-- Container-visibility portion of `Privacy::update` (lines 147-172), given
the flags just computed: when `is_visible != event_box_.get_visible()`,
disconnect `visibility_conn`; then either `set_visible(true)` (show) or
connect a fresh timeout firing `transition_duration` after `now`.
Otherwise nothing happens. Returns the new state and the sink emissions. -/
def updateVisibility (transition_duration : Nat) (s : VisState) (now : Nat)
    (flags : AggregateFlags) : VisState × List Emission :=
  let isv := is_visible flags
  if isv != s.vis then
    if isv then
      ({ vis := true, visibility_conn := none, nextId := s.nextId },
       [Emission.SetContainerVisible true])
    else
      ({ vis := s.vis,
         visibility_conn := some { id := s.nextId, deadline := now + transition_duration },
         nextId := s.nextId + 1 },
       [])
  else (s, [])

/-- The timeout lambda (lines 160-168) as delivered by Glib for source `tid`:
it runs only if `tid` is still the connected source (sigc disconnect destroys
the source, so a disconnected timer never runs). The body captures only
`this`, so it re-reads the three member vectors at fire time and calls
`event_box_.set_visible` with their disjunction; returning false removes the
source, leaving no timer outstanding. -/
def timeoutFire (s : VisState) (tid : Nat) (b : Buckets) : VisState × List Emission :=
  match s.visibility_conn with
  | some c =>
    if c.id = tid then
      let screenshare := !b.nodes_screenshare.isEmpty
      let audio_in := !b.nodes_audio_in.isEmpty
      let audio_out := !b.nodes_audio_out.isEmpty
      ({ vis := screenshare || audio_in || audio_out, visibility_conn := none,
         nextId := s.nextId },
       [Emission.SetContainerVisible (screenshare || audio_in || audio_out)])
    else (s, [])
  | none => (s, [])

/-- `PendingHide`: the container is still visible but a hide timeout is
connected (the only way the code arms a timeout keeps `vis` true). -/
def PendingHide (s : VisState) : Prop :=
  s.vis = true ∧ s.visibility_conn.isSome = true

/-- Well-formedness of the fresh-id counter: every connected timeout was
created with an id below `nextId`. -/
def WFVis (s : VisState) : Prop :=
  ∀ c : TimeoutConn, s.visibility_conn = some c → c.id < s.nextId

/-- States of the visibility debouncer reachable from a start state with no
timeout connected, under recompute steps and timer deliveries. -/
inductive ReachableVis (T : Nat) : VisState → Prop where
  | init (v : Bool) : ReachableVis T ⟨v, none, 0⟩
  | step_update (s : VisState) (now : Nat) (f : AggregateFlags) :
      ReachableVis T s → ReachableVis T (updateVisibility T s now f).1
  | step_fire (s : VisState) (tid : Nat) (b : Buckets) :
      ReachableVis T s → ReachableVis T (timeoutFire s tid b).1

/-! ### Lock/emission trace of a full `Privacy::update` call (for the locking
discipline claim) -/

/-- Atomic actions of `Privacy::update` and of the timeout lambda, in program
order: `mutex_` operations, calls into the presentation layer, and
`visibility_conn` manipulation. -/
inductive Action where
  | lock
  | unlock
  | sinkEmit (e : Emission)
  | disconnectConn
  | armTimeout
deriving DecidableEq, Repr

/-- The `set_in_use` loop over `box_.get_children()` (lines 128-144): each
`PrivacyItem` child gets the flag of its `privacy_type`; a child of type
`PRIVACY_NODE_TYPE_NONE` hits a bare `break` and produces no call. -/
def set_in_use_actions (children : List PrivacyNodeType)
    (screenshare audio_in audio_out : Bool) : List Action :=
  children.filterMap fun ty =>
    match ty with
    | PrivacyNodeType.PRIVACY_NODE_TYPE_VIDEO_INPUT =>
        some (Action.sinkEmit (Emission.SetCategoryActive ty screenshare))
    | PrivacyNodeType.PRIVACY_NODE_TYPE_AUDIO_INPUT =>
        some (Action.sinkEmit (Emission.SetCategoryActive ty audio_in))
    | PrivacyNodeType.PRIVACY_NODE_TYPE_AUDIO_OUTPUT =>
        some (Action.sinkEmit (Emission.SetCategoryActive ty audio_out))
    | PrivacyNodeType.PRIVACY_NODE_TYPE_NONE => none

/-- Program-order action trace of one `Privacy::update` call (lines 122-176):
`mutex_.lock()`; flag reads; the `set_in_use` loop; `mutex_.unlock()`; then
the conditional visibility block (disconnect, then either show or arm). -/
def updateTrace (children : List PrivacyNodeType) (b : Buckets) (visNow : Bool) :
    List Action :=
  let screenshare := !b.nodes_screenshare.isEmpty
  let audio_in := !b.nodes_audio_in.isEmpty
  let audio_out := !b.nodes_audio_out.isEmpty
  let isv := screenshare || audio_in || audio_out
  [Action.lock]
    ++ set_in_use_actions children screenshare audio_in audio_out
    ++ [Action.unlock]
    ++ (if isv != visNow then
          Action.disconnectConn ::
            (if isv then [Action.sinkEmit (Emission.SetContainerVisible true)]
             else [Action.armTimeout])
        else [])

/-- Program-order action trace of the timeout lambda (lines 160-168):
lock, flag reads, unlock, then the `set_visible` call. -/
def timeoutTrace (b : Buckets) : List Action :=
  [Action.lock, Action.unlock,
   Action.sinkEmit (Emission.SetContainerVisible (is_visible (snapshot_flags b)))]

/-- One step of the lock-depth scan: track the `mutex_` depth and collect the
actions executed while the depth is positive. -/
def lockStep (acc : Nat × List Action) (a : Action) : Nat × List Action :=
  match a with
  | Action.lock => (acc.1 + 1, acc.2)
  | Action.unlock => (acc.1 - 1, acc.2)
  | _ => if 0 < acc.1 then (acc.1, acc.2 ++ [a]) else acc

/-- The sub-list of actions executed while the lock is held (lock depth
positive), in order. -/
def actionsUnderLock (tr : List Action) : List Action :=
  (tr.foldl lockStep ((0, []) : Nat × List Action)).2

/-! ### Timed execution (for the debounce-delay claim) -/

/-- Shared state driven by a timed schedule: the visibility state plus the
current bucket contents. -/
structure RunState where
  vs : VisState
  buckets : Buckets
deriving DecidableEq, Repr

/-- Timed execution over a schedule of backend snapshots `(t, nodes)`.
At each event: a connected timeout whose deadline has passed is delivered
first (with the buckets as they stand, stamping its emissions with its
deadline); then `onPrivacyNodesChanged` rebuilds the buckets and the
recompute step runs at time `t`. After the last event any connected timeout
is delivered at its deadline. Emissions are (time, emission) pairs. -/
def runEvents (T : Nat) : RunState → List (Nat × List PrivacyNodeInfo) →
    RunState × List (Nat × Emission)
  | s, [] =>
    match s.vs.visibility_conn with
    | some c =>
      let fr := timeoutFire s.vs c.id s.buckets
      ({ vs := fr.1, buckets := s.buckets }, fr.2.map (fun e => (c.deadline, e)))
    | none => (s, [])
  | s, (t, nodes) :: rest =>
    let p1 : VisState × List (Nat × Emission) :=
      match s.vs.visibility_conn with
      | some c =>
        if c.deadline ≤ t then
          let fr := timeoutFire s.vs c.id s.buckets
          (fr.1, fr.2.map (fun e => (c.deadline, e)))
        else (s.vs, [])
      | none => (s.vs, [])
    let b2 := onPrivacyNodesChanged s.buckets nodes
    let p2 := updateVisibility T p1.1 t (snapshot_flags b2)
    let p3 := runEvents T { vs := p2.1, buckets := b2 } rest
    (p3.1, p1.2 ++ p2.2.map (fun e => (t, e)) ++ p3.2)

/-! ## Helper lemmas -/

/-- A concrete running screenshare node, used in witnesses. -/
def nodeVideoRunning : PrivacyNodeInfo :=
  ⟨7, PwNodeState.PW_NODE_STATE_RUNNING, PrivacyNodeType.PRIVACY_NODE_TYPE_VIDEO_INPUT⟩

/-- A concrete running audio-output node, used in witnesses. -/
def nodeAudioOutRunning : PrivacyNodeInfo :=
  ⟨1, PwNodeState.PW_NODE_STATE_RUNNING, PrivacyNodeType.PRIVACY_NODE_TYPE_AUDIO_OUTPUT⟩

/-- A concrete idle (non-running) screenshare node, used in witnesses. -/
def nodeVideoIdle : PrivacyNodeInfo :=
  ⟨9, PwNodeState.PW_NODE_STATE_IDLE, PrivacyNodeType.PRIVACY_NODE_TYPE_VIDEO_INPUT⟩

/-- A state in `PendingHide`: container visible with timeout id 0 connected,
deadline 500, one id consumed. -/
def pendingHideEx : VisState := ⟨true, some ⟨0, 500⟩, 1⟩

/-- The all-inactive flag snapshot. -/
def flagsNone : AggregateFlags := ⟨false, false, false⟩

/-- The rebuild loop, folded from an arbitrary accumulator, appends exactly
the running nodes of each category in snapshot order. -/
theorem foldl_processNode (nodes : List PrivacyNodeInfo) (b : Buckets) :
    nodes.foldl processNode b =
      { nodes_screenshare := b.nodes_screenshare
          ++ nodes.filter (isRunningOfType PrivacyNodeType.PRIVACY_NODE_TYPE_VIDEO_INPUT)
        nodes_audio_in := b.nodes_audio_in
          ++ nodes.filter (isRunningOfType PrivacyNodeType.PRIVACY_NODE_TYPE_AUDIO_INPUT)
        nodes_audio_out := b.nodes_audio_out
          ++ nodes.filter (isRunningOfType PrivacyNodeType.PRIVACY_NODE_TYPE_AUDIO_OUTPUT) } := by
  induction nodes generalizing b with
  | nil => simp
  | cons n rest ih =>
    rcases n with ⟨nid, st, ty⟩
    cases st <;> cases ty <;>
      simp [processNode, isRunningOfType, ih, List.filter_cons, List.append_assoc]

/-- The rebuild result, characterised as three filters of the snapshot. -/
theorem onPrivacyNodesChanged_eq (prior : Buckets) (snapshot : List PrivacyNodeInfo) :
    onPrivacyNodesChanged prior snapshot =
      { nodes_screenshare :=
          snapshot.filter (isRunningOfType PrivacyNodeType.PRIVACY_NODE_TYPE_VIDEO_INPUT)
        nodes_audio_in :=
          snapshot.filter (isRunningOfType PrivacyNodeType.PRIVACY_NODE_TYPE_AUDIO_INPUT)
        nodes_audio_out :=
          snapshot.filter (isRunningOfType PrivacyNodeType.PRIVACY_NODE_TYPE_AUDIO_OUTPUT) } := by
  have h := foldl_processNode snapshot bucketsEmpty
  simpa [onPrivacyNodesChanged, bucketsEmpty] using h

/-! ## Claims -/

/-- C5: `onPrivacyNodesChanged` clears all three buckets (the prior contents
do not appear in the result) and refills them with exactly the snapshot's
`RUNNING` nodes of the matching category, in snapshot order — `NONE`-typed
nodes are silently dropped — so no node whose lifecycle state differs from
`PW_NODE_STATE_RUNNING` appears in any bucket. -/
theorem c5_rebuild_filters (prior : Buckets) (snapshot : List PrivacyNodeInfo) :
    onPrivacyNodesChanged prior snapshot =
      { nodes_screenshare :=
          snapshot.filter (isRunningOfType PrivacyNodeType.PRIVACY_NODE_TYPE_VIDEO_INPUT)
        nodes_audio_in :=
          snapshot.filter (isRunningOfType PrivacyNodeType.PRIVACY_NODE_TYPE_AUDIO_INPUT)
        nodes_audio_out :=
          snapshot.filter (isRunningOfType PrivacyNodeType.PRIVACY_NODE_TYPE_AUDIO_OUTPUT) }
    ∧ ∀ n : PrivacyNodeInfo, n.state ≠ PwNodeState.PW_NODE_STATE_RUNNING →
        n ∉ (onPrivacyNodesChanged prior snapshot).nodes_screenshare
        ∧ n ∉ (onPrivacyNodesChanged prior snapshot).nodes_audio_in
        ∧ n ∉ (onPrivacyNodesChanged prior snapshot).nodes_audio_out := by
  refine ⟨onPrivacyNodesChanged_eq prior snapshot, ?_⟩
  intro n hn
  rw [onPrivacyNodesChanged_eq prior snapshot]
  refine ⟨?_, ?_, ?_⟩ <;>
    · intro hmem
      have := (List.mem_filter.mp hmem).2
      simp [isRunningOfType] at this
      exact hn this.1

/-- Witness for C5 at a concrete snapshot: the idle screenshare node is kept
out of every bucket. -/
theorem c5_rebuild_filters_witness :
    nodeVideoIdle ∉ (onPrivacyNodesChanged bucketsEmpty
      [nodeVideoRunning, nodeVideoIdle, nodeAudioOutRunning]).nodes_screenshare :=
  ((c5_rebuild_filters bucketsEmpty
      [nodeVideoRunning, nodeVideoIdle, nodeAudioOutRunning]).2 nodeVideoIdle
    (by decide)).1

/-- C9: rebuilding twice from the same snapshot gives identical bucket
contents and identical aggregate flags — the rebuild discards the prior
bucket contents, so its result does not depend on them at all. -/
theorem c9_rebuild_idempotent (prior : Buckets) (snapshot : List PrivacyNodeInfo) :
    onPrivacyNodesChanged (onPrivacyNodesChanged prior snapshot) snapshot
        = onPrivacyNodesChanged prior snapshot
    ∧ snapshot_flags (onPrivacyNodesChanged (onPrivacyNodesChanged prior snapshot) snapshot)
        = snapshot_flags (onPrivacyNodesChanged prior snapshot) :=
  ⟨rfl, rfl⟩

/-- Witness for C9 at a concrete snapshot. -/
theorem c9_rebuild_idempotent_witness :
    onPrivacyNodesChanged
        (onPrivacyNodesChanged bucketsEmpty [nodeVideoRunning, nodeAudioOutRunning])
        [nodeVideoRunning, nodeAudioOutRunning]
      = onPrivacyNodesChanged bucketsEmpty [nodeVideoRunning, nodeAudioOutRunning] :=
  (c9_rebuild_idempotent bucketsEmpty [nodeVideoRunning, nodeAudioOutRunning]).1

/-- C3 counterexample: with the default module selection (`modules` absent,
so only screenshare and audio-in items are constructed — no audio-out item),
a single `RUNNING` `AUDIO_OUTPUT` node still yields `is_visible = true` and
the recompute step makes the hidden container visible, emitting show. The
untracked category does contribute to the aggregate. -/
theorem c3_counterexample :
    PrivacyNodeType.PRIVACY_NODE_TYPE_AUDIO_OUTPUT ∉ constructedItems Json.null
    ∧ is_visible (snapshot_flags
        (onPrivacyNodesChanged bucketsEmpty [nodeAudioOutRunning])) = true
    ∧ (updateVisibility 500 ⟨false, none, 0⟩ 0
        (snapshot_flags (onPrivacyNodesChanged bucketsEmpty [nodeAudioOutRunning])))
        = (⟨true, none, 0⟩, [Emission.SetContainerVisible true]) := by
  refine ⟨?_, rfl, rfl⟩
  intro h
  simp [constructedItems, selectedModules, defaultModules, moduleItem, Json.isArray,
    Json.get, Json.isObject, Json.isString, Json.asString, typeKey, screenshareStr,
    audioInStr, audioOutStr, List.filterMap] at h

/-- C3 amended: the `modules` selection only controls which per-category
items are constructed; all three buckets are always maintained and
`is_visible` is the disjunction over all three, so any `RUNNING` node whose
category is not `NONE` makes the container visible, whether or not its
category has a configured module. -/
theorem c3_amended (prior : Buckets) (snapshot : List PrivacyNodeInfo)
    (n : PrivacyNodeInfo) (hmem : n ∈ snapshot)
    (hrun : n.state = PwNodeState.PW_NODE_STATE_RUNNING)
    (hty : n.type ≠ PrivacyNodeType.PRIVACY_NODE_TYPE_NONE) :
    is_visible (snapshot_flags (onPrivacyNodesChanged prior snapshot)) = true := by
  rw [onPrivacyNodesChanged_eq prior snapshot]
  have hmemf : ∀ ty : PrivacyNodeType, n.type = ty →
      n ∈ snapshot.filter (isRunningOfType ty) := by
    intro ty hcase
    exact List.mem_filter.mpr ⟨hmem, by simp [isRunningOfType, hrun, hcase]⟩
  cases hc : n.type with
  | PRIVACY_NODE_TYPE_NONE => exact absurd hc hty
  | PRIVACY_NODE_TYPE_VIDEO_INPUT =>
    have := List.ne_nil_of_mem (hmemf _ hc)
    simp [is_visible, snapshot_flags, List.isEmpty_iff, this]
  | PRIVACY_NODE_TYPE_AUDIO_INPUT =>
    have := List.ne_nil_of_mem (hmemf _ hc)
    simp [is_visible, snapshot_flags, List.isEmpty_iff, this]
  | PRIVACY_NODE_TYPE_AUDIO_OUTPUT =>
    have := List.ne_nil_of_mem (hmemf _ hc)
    simp [is_visible, snapshot_flags, List.isEmpty_iff, this]

/-- Witness for the amended C3 at a concrete input: the lone running
audio-output node makes the container visible. -/
theorem c3_amended_witness :
    is_visible (snapshot_flags
      (onPrivacyNodesChanged bucketsEmpty [nodeAudioOutRunning])) = true :=
  c3_amended bucketsEmpty [nodeAudioOutRunning] nodeAudioOutRunning
    (by decide) (by decide) (by decide)

/-- C10: defaults are substituted exactly when the configured `modules`
value is not an array or is an empty array; a non-empty array is processed
as-is, and if all of its entries are malformed (not an object, `type` not a
string, or an unrecognised type string — `moduleItem` returns `none`), every
entry is silently skipped and no per-category item is constructed. -/
theorem c10_malformed_modules (xs : List Json) (hne : xs ≠ [])
    (hmal : ∀ m ∈ xs, moduleItem m = none) :
    selectedModules (Json.arrVal xs) = xs
    ∧ constructedItems (Json.arrVal xs) = []
    ∧ (∀ cfg : Json, cfg.isArray = false → selectedModules cfg = defaultModules)
    ∧ selectedModules (Json.arrVal []) = defaultModules := by
  have hsel : selectedModules (Json.arrVal xs) = xs := by
    simp [selectedModules, Json.isArray, Json.size, Json.elems, hne]
  refine ⟨hsel, ?_, ?_, rfl⟩
  · simp only [constructedItems, hsel]
    exact List.filterMap_eq_nil_iff.mpr hmal
  · intro cfg hcfg
    simp [selectedModules, hcfg]

/-- Witness for C10 at a concrete input: a one-element array whose entry is a
bare number is kept (no default substitution) and yields no items. -/
theorem c10_malformed_modules_witness :
    selectedModules (Json.arrVal [Json.intVal 5]) = [Json.intVal 5]
    ∧ constructedItems (Json.arrVal [Json.intVal 5]) = [] := by
  have h := c10_malformed_modules [Json.intVal 5] (by simp)
    (by intro m hm; simp at hm; subst hm; rfl)
  exact ⟨h.1, h.2.1⟩

/-- Branch equation for `updateVisibility`: when the flags agree with the
current widget visibility, the whole block is skipped. -/
theorem updateVisibility_noop (T : Nat) (s : VisState) (now : Nat) (f : AggregateFlags)
    (h : is_visible f = s.vis) : updateVisibility T s now f = (s, []) := by
  simp [updateVisibility, h]

/-- Branch equation for `updateVisibility`: hidden container and active flags
disconnect any timeout and show the container. -/
theorem updateVisibility_show (T : Nat) (s : VisState) (now : Nat) (f : AggregateFlags)
    (h1 : is_visible f = true) (h2 : s.vis = false) :
    updateVisibility T s now f
      = ({ vis := true, visibility_conn := none, nextId := s.nextId },
         [Emission.SetContainerVisible true]) := by
  simp [updateVisibility, h1, h2]

/-- Branch equation for `updateVisibility`: visible container and inactive
flags disconnect any previous timeout and connect a fresh one with deadline
`now + transition_duration`, emitting nothing. -/
theorem updateVisibility_arm (T : Nat) (s : VisState) (now : Nat) (f : AggregateFlags)
    (h1 : is_visible f = false) (h2 : s.vis = true) :
    updateVisibility T s now f
      = ({ vis := true,
           visibility_conn := some { id := s.nextId, deadline := now + T },
           nextId := s.nextId + 1 },
         []) := by
  simp [updateVisibility, h1, h2]

/-- Branch equation for `timeoutFire`: no timeout connected, nothing runs. -/
theorem timeoutFire_none (s : VisState) (tid : Nat) (b : Buckets)
    (h : s.visibility_conn = none) : timeoutFire s tid b = (s, []) := by
  simp [timeoutFire, h]

/-- Branch equation for `timeoutFire`: a timer other than the connected one
never runs (sigc disconnect destroyed its source). -/
theorem timeoutFire_miss (s : VisState) (tid : Nat) (b : Buckets) (c : TimeoutConn)
    (h : s.visibility_conn = some c) (hne : c.id ≠ tid) :
    timeoutFire s tid b = (s, []) := by
  simp [timeoutFire, h, hne]

/-- Branch equation for `timeoutFire`: the connected timer runs, re-reads the
buckets and sets the container visibility to their current disjunction. -/
theorem timeoutFire_hit (s : VisState) (tid : Nat) (b : Buckets) (c : TimeoutConn)
    (h : s.visibility_conn = some c) (hid : c.id = tid) :
    timeoutFire s tid b
      = ({ vis := is_visible (snapshot_flags b), visibility_conn := none,
           nextId := s.nextId },
         [Emission.SetContainerVisible (is_visible (snapshot_flags b))]) := by
  simp [timeoutFire, h, hid, is_visible, snapshot_flags]

/-- The recompute step preserves well-formedness of the fresh-id counter. -/
theorem updateVisibility_WF (T : Nat) (s : VisState) (now : Nat) (f : AggregateFlags)
    (h : WFVis s) : WFVis (updateVisibility T s now f).1 := by
  intro c hc
  rcases hsv : s.vis <;> rcases hv : is_visible f
  · rw [updateVisibility_noop T s now f (hv.trans hsv.symm)] at hc ⊢
    exact h c hc
  · rw [updateVisibility_show T s now f hv hsv] at hc
    exact Option.noConfusion hc
  · rw [updateVisibility_arm T s now f hv hsv] at hc ⊢
    have hcc : ({ id := s.nextId, deadline := now + T } : TimeoutConn) = c :=
      Option.some.inj hc
    subst hcc
    exact Nat.lt_succ_self s.nextId
  · rw [updateVisibility_noop T s now f (hv.trans hsv.symm)] at hc ⊢
    exact h c hc

/-- Timer delivery preserves well-formedness of the fresh-id counter. -/
theorem timeoutFire_WF (s : VisState) (tid : Nat) (b : Buckets)
    (h : WFVis s) : WFVis (timeoutFire s tid b).1 := by
  intro c hc
  rcases hconn : s.visibility_conn with _ | c0
  · rw [timeoutFire_none s tid b hconn] at hc ⊢
    exact h c hc
  · by_cases hid : c0.id = tid
    · rw [timeoutFire_hit s tid b c0 hconn hid] at hc
      exact Option.noConfusion hc
    · rw [timeoutFire_miss s tid b c0 hconn hid] at hc ⊢
      exact h c hc

/-- Every reachable debouncer state is well formed. -/
theorem reachable_WF (T : Nat) (s : VisState) (h : ReachableVis T s) : WFVis s := by
  induction h with
  | init v => intro c hc; simp at hc
  | step_update s now f _ ih => exact updateVisibility_WF T s now f ih
  | step_fire s tid b _ ih => exact timeoutFire_WF s tid b ih

/-- C1 counterexample: in `PendingHide` (visible, timeout id 0 with deadline
500 connected) a recompute with all flags false is not a timer no-op: it
disconnects timeout 0 and connects a fresh timeout (id 1, deadline
`now + transition_duration` = 1200), and a late delivery of the original
timeout 0 does nothing. -/
theorem c1_counterexample :
    (updateVisibility 500 pendingHideEx 700 flagsNone).1.visibility_conn = some ⟨1, 1200⟩
    ∧ (updateVisibility 500 pendingHideEx 700 flagsNone).1.visibility_conn ≠ some ⟨0, 500⟩
    ∧ timeoutFire (updateVisibility 500 pendingHideEx 700 flagsNone).1 0 bucketsEmpty
        = ((updateVisibility 500 pendingHideEx 700 flagsNone).1, []) := by
  decide

/-- C1 amended: with all flags false while `PendingHide`, the recompute step
re-enters the visibility branch (`is_visible != get_visible()` holds because
the container is still visible), disconnects the previously armed timeout and
arms a fresh one with deadline `now + transition_duration`; nothing is
emitted, the container stays visible, and the original timeout becomes a
guaranteed no-op — so the NEW timer, not the original one, governs the
eventual hide, and repeated inactive recomputes reset the debounce window. -/
theorem c1_rearms_new_timeout (T now : Nat) (s : VisState) (f : AggregateFlags)
    (c : TimeoutConn) (hreach : ReachableVis T s) (hvis : s.vis = true)
    (hconn : s.visibility_conn = some c) (hflags : is_visible f = false) :
    (updateVisibility T s now f).1.visibility_conn = some ⟨s.nextId, now + T⟩
    ∧ (updateVisibility T s now f).1.visibility_conn ≠ some c
    ∧ (updateVisibility T s now f).1.vis = true
    ∧ (updateVisibility T s now f).2 = []
    ∧ ∀ b : Buckets, timeoutFire (updateVisibility T s now f).1 c.id b
        = ((updateVisibility T s now f).1, []) := by
  have hlt : c.id < s.nextId := reachable_WF T s hreach c hconn
  have hss := updateVisibility_arm T s now f hflags hvis
  refine ⟨by rw [hss], ?_, by rw [hss], by rw [hss], ?_⟩
  · rw [hss]
    intro hcontra
    have hcc : ({ id := s.nextId, deadline := now + T } : TimeoutConn) = c :=
      Option.some.inj hcontra
    rw [← hcc] at hlt
    exact absurd rfl (Nat.ne_of_lt hlt)
  · intro b
    rw [hss]
    exact timeoutFire_miss _ c.id b { id := s.nextId, deadline := now + T } rfl
      (Nat.ne_of_gt hlt)

/-- Witness for the amended C1 at a concrete input. -/
theorem c1_rearms_new_timeout_witness :
    (updateVisibility 500 pendingHideEx 700 flagsNone).1.visibility_conn
      = some ⟨1, 1200⟩ := by
  have hreach : ReachableVis 500 pendingHideEx := by
    have h0 : ReachableVis 500 (updateVisibility 500 ⟨true, none, 0⟩ 0 flagsNone).1 :=
      ReachableVis.step_update ⟨true, none, 0⟩ 0 flagsNone (ReachableVis.init true)
    have he : (updateVisibility 500 ⟨true, none, 0⟩ 0 flagsNone).1 = pendingHideEx := by
      decide
    rw [he] at h0
    exact h0
  exact (c1_rearms_new_timeout 500 700 pendingHideEx flagsNone ⟨0, 500⟩
    hreach rfl rfl rfl).1

/-- C2 counterexample: in `PendingHide` (visible, timeout id 0 connected) a
recompute with the screenshare flag true leaves the state completely
unchanged — the pending timeout is still connected, not cancelled — and
emits nothing, because `is_visible == get_visible()` skips the branch. -/
theorem c2_counterexample :
    updateVisibility 500 pendingHideEx 700 ⟨true, false, false⟩ = (pendingHideEx, [])
    ∧ pendingHideEx.visibility_conn = some ⟨0, 500⟩ := by
  decide

/-- C2 amended: with a flag true while `PendingHide`, the recompute step is a
complete no-op — the pending timeout stays connected and no show is emitted
(the container is already visible). The stale hide is suppressed only at
fire time: the timeout re-reads the buckets, and whenever they are still
active it re-asserts visibility rather than hiding. -/
theorem c2_stale_timer_survives (T now : Nat) (s : VisState) (f : AggregateFlags)
    (hpend : PendingHide s) (hactive : is_visible f = true) :
    updateVisibility T s now f = (s, [])
    ∧ ∀ (b : Buckets) (tid : Nat), is_visible (snapshot_flags b) = true →
        (timeoutFire s tid b).1.vis = true
        ∧ Emission.SetContainerVisible false ∉ (timeoutFire s tid b).2 := by
  refine ⟨updateVisibility_noop T s now f (hactive.trans hpend.1.symm), ?_⟩
  intro b tid hb
  rcases hconn : s.visibility_conn with _ | c0
  · rw [timeoutFire_none s tid b hconn]
    exact ⟨hpend.1, by simp⟩
  · by_cases hid : c0.id = tid
    · rw [timeoutFire_hit s tid b c0 hconn hid]
      exact ⟨hb, by simp [hb]⟩
    · rw [timeoutFire_miss s tid b c0 hconn hid]
      exact ⟨hpend.1, by simp⟩

/-- Witness for the amended C2 at a concrete input. -/
theorem c2_stale_timer_survives_witness :
    updateVisibility 500 pendingHideEx 700 ⟨true, false, false⟩ = (pendingHideEx, []) :=
  (c2_stale_timer_survives 500 700 pendingHideEx ⟨true, false, false⟩
    ⟨rfl, rfl⟩ rfl).1

/-- C6: delivery of a still-connected timeout re-reads the buckets at fire
time (the lambda captures only `this`): it sets the container visibility to
the disjunction of the current flags and disconnects itself, emitting
`SetContainerVisible false` (hide, reaching the Hidden state) precisely when
all flags are false at fire time, and performing no hide otherwise. -/
theorem c6_fire_rechecks (s : VisState) (c : TimeoutConn) (b : Buckets)
    (hconn : s.visibility_conn = some c) :
    (timeoutFire s c.id b).1.vis = is_visible (snapshot_flags b)
    ∧ (timeoutFire s c.id b).1.visibility_conn = none
    ∧ ((timeoutFire s c.id b).2 = [Emission.SetContainerVisible false]
        ↔ is_visible (snapshot_flags b) = false)
    ∧ (is_visible (snapshot_flags b) = true →
        Emission.SetContainerVisible false ∉ (timeoutFire s c.id b).2) := by
  rw [timeoutFire_hit s c.id b c hconn rfl]
  refine ⟨rfl, rfl, ?_, ?_⟩
  · constructor
    · intro h
      simpa using h
    · intro h
      rw [h]
  · intro h
    simp [h]

/-- Witness for C6 at a concrete input: fire with empty buckets hides. -/
theorem c6_fire_rechecks_witness :
    (timeoutFire pendingHideEx 0 bucketsEmpty).2
      = [Emission.SetContainerVisible false] :=
  (c6_fire_rechecks pendingHideEx ⟨0, 500⟩ bucketsEmpty rfl).2.2.1.mpr rfl

/-- C7: in every reachable debouncer state (a) at most one timeout is
connected — `visibility_conn` is a single handle; (b) whenever the recompute
step takes the visibility branch while a timeout `c` is connected, `c` is
disconnected first (the result never holds `c`, and a late delivery of `c`
in the resulting state is a no-op); (c) delivering any timer that is not the
currently connected one changes nothing and emits nothing. -/
theorem c7_single_timeout (T : Nat) (s : VisState) (hreach : ReachableVis T s) :
    (∀ c₁ c₂ : TimeoutConn, s.visibility_conn = some c₁ →
        s.visibility_conn = some c₂ → c₁ = c₂)
    ∧ (∀ (now : Nat) (f : AggregateFlags) (c : TimeoutConn) (b : Buckets),
        s.visibility_conn = some c → (is_visible f != s.vis) = true →
        (updateVisibility T s now f).1.visibility_conn ≠ some c
        ∧ timeoutFire (updateVisibility T s now f).1 c.id b
            = ((updateVisibility T s now f).1, []))
    ∧ (∀ (tid : Nat) (b : Buckets),
        (∀ c : TimeoutConn, s.visibility_conn = some c → c.id ≠ tid) →
        timeoutFire s tid b = (s, [])) := by
  refine ⟨?_, ?_, ?_⟩
  · intro c₁ c₂ h1 h2
    rw [h1] at h2
    exact Option.some.inj h2
  · intro now f c b hconn hbr
    have hlt : c.id < s.nextId := reachable_WF T s hreach c hconn
    rcases hv : is_visible f
    · have hsv : s.vis = true := by
        rcases hsv : s.vis
        · rw [hv, hsv] at hbr
          simp at hbr
        · rfl
      have hss := updateVisibility_arm T s now f hv hsv
      rw [hss]
      constructor
      · intro hcontra
        have hcc : ({ id := s.nextId, deadline := now + T } : TimeoutConn) = c :=
          Option.some.inj hcontra
        rw [← hcc] at hlt
        exact absurd rfl (Nat.ne_of_lt hlt)
      · exact timeoutFire_miss _ c.id b { id := s.nextId, deadline := now + T } rfl
          (Nat.ne_of_gt hlt)
    · have hsv : s.vis = false := by
        rcases hsv : s.vis
        · rfl
        · rw [hv, hsv] at hbr
          simp at hbr
      have hss := updateVisibility_show T s now f hv hsv
      rw [hss]
      exact ⟨fun hcontra => Option.noConfusion hcontra, timeoutFire_none _ c.id b rfl⟩
  · intro tid b hne
    rcases hconn : s.visibility_conn with _ | c0
    · exact timeoutFire_none s tid b hconn
    · exact timeoutFire_miss s tid b c0 hconn (hne c0 hconn)

/-- Witness for C7 at a concrete reachable state: delivering a timer id (5)
other than the connected one (0) is a no-op. -/
theorem c7_single_timeout_witness :
    timeoutFire pendingHideEx 5 bucketsEmpty = (pendingHideEx, []) := by
  have hreach : ReachableVis 500 pendingHideEx := by
    have h0 : ReachableVis 500 (updateVisibility 500 ⟨true, none, 0⟩ 0 flagsNone).1 :=
      ReachableVis.step_update ⟨true, none, 0⟩ 0 flagsNone (ReachableVis.init true)
    have he : (updateVisibility 500 ⟨true, none, 0⟩ 0 flagsNone).1 = pendingHideEx := by
      decide
    rw [he] at h0
    exact h0
  refine (c7_single_timeout 500 pendingHideEx hreach).2.2 5 bucketsEmpty ?_
  intro c hc
  have : (⟨0, 500⟩ : TimeoutConn) = c := Option.some.inj hc
  subst this
  decide

/-- Scanning a run of actions that are neither `lock` nor `unlock` at a
positive lock depth collects all of them, in order. -/
theorem foldl_lockStep_pos (xs : List Action) (n : Nat) (acc : List Action)
    (hn : 0 < n) (hx : ∀ a ∈ xs, a ≠ Action.lock ∧ a ≠ Action.unlock) :
    xs.foldl lockStep (n, acc) = (n, acc ++ xs) := by
  induction xs generalizing acc with
  | nil => simp
  | cons a rest ih =>
    have ha := hx a (by simp)
    have hstep : lockStep (n, acc) a = (n, acc ++ [a]) := by
      cases a
      · exact absurd rfl ha.1
      · exact absurd rfl ha.2
      all_goals simp [lockStep, hn]
    rw [List.foldl_cons, hstep, ih (acc ++ [a]) (fun b hb => hx b (by simp [hb]))]
    simp

/-- Scanning lock-free actions at depth zero collects nothing. -/
theorem foldl_lockStep_zero (xs : List Action) (acc : List Action)
    (hx : ∀ a ∈ xs, a ≠ Action.lock) :
    xs.foldl lockStep (0, acc) = (0, acc) := by
  induction xs with
  | nil => simp
  | cons a rest ih =>
    have ha := hx a (by simp)
    have hstep : lockStep (0, acc) a = (0, acc) := by
      cases a
      · exact absurd rfl ha
      all_goals simp [lockStep]
    rw [List.foldl_cons, hstep, ih (fun b hb => hx b (by simp [hb]))]

/-- Every action produced by the `set_in_use` loop is a per-category call
into the presentation layer. -/
theorem set_in_use_actions_mem (children : List PrivacyNodeType)
    (s1 a2 a3 : Bool) (a : Action)
    (ha : a ∈ set_in_use_actions children s1 a2 a3) :
    ∃ ty bb, a = Action.sinkEmit (Emission.SetCategoryActive ty bb) := by
  unfold set_in_use_actions at ha
  rcases List.mem_filterMap.mp ha with ⟨ty, _, hty⟩
  cases ty
  · exact Option.noConfusion hty
  · exact ⟨_, _, (Option.some.inj hty).symm⟩
  · exact ⟨_, _, (Option.some.inj hty).symm⟩
  · exact ⟨_, _, (Option.some.inj hty).symm⟩

/-- The tail of the update trace (the conditional visibility block) takes
the lock nowhere. -/
theorem updateTrace_tail_no_lock (isv visNow : Bool) (a : Action)
    (ha : a ∈ (if isv != visNow then
          Action.disconnectConn ::
            (if isv then [Action.sinkEmit (Emission.SetContainerVisible true)]
             else [Action.armTimeout])
        else ([] : List Action))) : a ≠ Action.lock := by
  intro heq
  subst heq
  rcases hbv : (isv != visNow) <;> rw [hbv] at ha <;> simp at ha
  rcases hv : isv <;> rw [hv] at ha <;> simp at ha

/-- C4 counterexample: with a single configured screenshare item and one
running screenshare node, the `set_in_use` call into the presentation layer
happens while the exclusive lock is held — the lock IS held across a
per-category emission. -/
theorem c4_counterexample :
    Action.sinkEmit
        (Emission.SetCategoryActive PrivacyNodeType.PRIVACY_NODE_TYPE_VIDEO_INPUT true)
      ∈ actionsUnderLock
          (updateTrace [PrivacyNodeType.PRIVACY_NODE_TYPE_VIDEO_INPUT]
            ⟨[nodeVideoRunning], [], []⟩ true) := by
  decide

/-- C4 amended: in every `update` call the actions performed under the
exclusive lock are exactly the per-category `set_in_use` emissions into the
presentation layer (so the lock is held across each of those calls whenever
a configured item exists); the container-level `SetContainerVisible`
emission and the timer manipulation happen only after the lock is released,
and the timeout handler also emits only after unlocking. -/
theorem c4_lock_across_category_emits (children : List PrivacyNodeType)
    (b : Buckets) (visNow : Bool) :
    actionsUnderLock (updateTrace children b visNow)
      = set_in_use_actions children (!b.nodes_screenshare.isEmpty)
          (!b.nodes_audio_in.isEmpty) (!b.nodes_audio_out.isEmpty)
    ∧ (∀ v : Bool, Action.sinkEmit (Emission.SetContainerVisible v)
        ∉ actionsUnderLock (updateTrace children b visNow))
    ∧ actionsUnderLock (timeoutTrace b) = [] := by
  have hmain : actionsUnderLock (updateTrace children b visNow)
      = set_in_use_actions children (!b.nodes_screenshare.isEmpty)
          (!b.nodes_audio_in.isEmpty) (!b.nodes_audio_out.isEmpty) := by
    have htr : updateTrace children b visNow
        = [Action.lock]
            ++ set_in_use_actions children (!b.nodes_screenshare.isEmpty)
                (!b.nodes_audio_in.isEmpty) (!b.nodes_audio_out.isEmpty)
            ++ [Action.unlock]
            ++ (if ((!b.nodes_screenshare.isEmpty || !b.nodes_audio_in.isEmpty
                    || !b.nodes_audio_out.isEmpty) != visNow)
                then Action.disconnectConn ::
                  (if (!b.nodes_screenshare.isEmpty || !b.nodes_audio_in.isEmpty
                      || !b.nodes_audio_out.isEmpty)
                   then [Action.sinkEmit (Emission.SetContainerVisible true)]
                   else [Action.armTimeout])
                else []) := rfl
    unfold actionsUnderLock
    rw [htr, List.foldl_append, List.foldl_append, List.foldl_append]
    have e1 : List.foldl lockStep ((0, []) : Nat × List Action) [Action.lock]
        = (1, []) := rfl
    rw [e1]
    rw [foldl_lockStep_pos _ 1 [] (by omega)
      (fun a ha => by
        rcases set_in_use_actions_mem _ _ _ _ a ha with ⟨ty, bb, hab⟩
        subst hab
        exact ⟨Action.noConfusion, Action.noConfusion⟩)]
    have e2 : ∀ l : List Action, List.foldl lockStep (1, l) [Action.unlock]
        = (0, l) := fun l => rfl
    rw [e2]
    rw [foldl_lockStep_zero _ _ (fun a ha => updateTrace_tail_no_lock _ _ a ha)]
    simp
  refine ⟨hmain, ?_, rfl⟩
  intro v hv
  rw [hmain] at hv
  rcases set_in_use_actions_mem _ _ _ _ _ hv with ⟨ty, bb, hab⟩
  simp at hab

/-- Witness for the amended C4 at a concrete input. -/
theorem c4_lock_across_category_emits_witness :
    actionsUnderLock
        (updateTrace [PrivacyNodeType.PRIVACY_NODE_TYPE_VIDEO_INPUT]
          ⟨[nodeVideoRunning], [], []⟩ true)
      = [Action.sinkEmit (Emission.SetCategoryActive
          PrivacyNodeType.PRIVACY_NODE_TYPE_VIDEO_INPUT true)]
    ∧ Action.sinkEmit (Emission.SetContainerVisible false)
      ∉ actionsUnderLock
          (updateTrace [PrivacyNodeType.PRIVACY_NODE_TYPE_VIDEO_INPUT]
            ⟨[nodeVideoRunning], [], []⟩ true) := by
  have h := c4_lock_across_category_emits
    [PrivacyNodeType.PRIVACY_NODE_TYPE_VIDEO_INPUT] ⟨[nodeVideoRunning], [], []⟩ true
  exact ⟨h.1, h.2.1 false⟩

/-- Branch equation for `runEvents`: schedule exhausted, no timeout left. -/
theorem runEvents_nil_none (T : Nat) (s : RunState)
    (h : s.vs.visibility_conn = none) : runEvents T s [] = (s, []) := by
  simp [runEvents, h]

/-- Branch equation for `runEvents`: schedule exhausted, the connected
timeout is delivered at its deadline. -/
theorem runEvents_nil_some (T : Nat) (s : RunState) (c : TimeoutConn)
    (h : s.vs.visibility_conn = some c) :
    runEvents T s []
      = ({ vs := (timeoutFire s.vs c.id s.buckets).1, buckets := s.buckets },
         (timeoutFire s.vs c.id s.buckets).2.map (fun e => (c.deadline, e))) := by
  simp [runEvents, h]

/-- Branch equation for `runEvents`: next event with no connected timeout. -/
theorem runEvents_cons_none (T : Nat) (s : RunState) (t : Nat)
    (nodes : List PrivacyNodeInfo) (rest : List (Nat × List PrivacyNodeInfo))
    (h : s.vs.visibility_conn = none) :
    runEvents T s ((t, nodes) :: rest)
      = ((runEvents T
            { vs := (updateVisibility T s.vs t
                (snapshot_flags (onPrivacyNodesChanged s.buckets nodes))).1,
              buckets := onPrivacyNodesChanged s.buckets nodes } rest).1,
         (updateVisibility T s.vs t
            (snapshot_flags (onPrivacyNodesChanged s.buckets nodes))).2.map
              (fun e => (t, e))
           ++ (runEvents T
                { vs := (updateVisibility T s.vs t
                    (snapshot_flags (onPrivacyNodesChanged s.buckets nodes))).1,
                  buckets := onPrivacyNodesChanged s.buckets nodes } rest).2) := by
  simp [runEvents, h]

/-- Branch equation for `runEvents`: next event with a connected timeout
whose deadline has not yet been reached. -/
theorem runEvents_cons_nofire (T : Nat) (s : RunState) (t : Nat)
    (nodes : List PrivacyNodeInfo) (rest : List (Nat × List PrivacyNodeInfo))
    (c : TimeoutConn) (h : s.vs.visibility_conn = some c) (hd : ¬ c.deadline ≤ t) :
    runEvents T s ((t, nodes) :: rest)
      = ((runEvents T
            { vs := (updateVisibility T s.vs t
                (snapshot_flags (onPrivacyNodesChanged s.buckets nodes))).1,
              buckets := onPrivacyNodesChanged s.buckets nodes } rest).1,
         (updateVisibility T s.vs t
            (snapshot_flags (onPrivacyNodesChanged s.buckets nodes))).2.map
              (fun e => (t, e))
           ++ (runEvents T
                { vs := (updateVisibility T s.vs t
                    (snapshot_flags (onPrivacyNodesChanged s.buckets nodes))).1,
                  buckets := onPrivacyNodesChanged s.buckets nodes } rest).2) := by
  simp [runEvents, h, hd]

/-- Branch equation for `runEvents`: next event with a connected timeout that
is due, so it is delivered first (with the pre-rebuild buckets). -/
theorem runEvents_cons_fire (T : Nat) (s : RunState) (t : Nat)
    (nodes : List PrivacyNodeInfo) (rest : List (Nat × List PrivacyNodeInfo))
    (c : TimeoutConn) (h : s.vs.visibility_conn = some c) (hd : c.deadline ≤ t) :
    runEvents T s ((t, nodes) :: rest)
      = ((runEvents T
            { vs := (updateVisibility T (timeoutFire s.vs c.id s.buckets).1 t
                (snapshot_flags (onPrivacyNodesChanged s.buckets nodes))).1,
              buckets := onPrivacyNodesChanged s.buckets nodes } rest).1,
         (timeoutFire s.vs c.id s.buckets).2.map (fun e => (c.deadline, e))
           ++ (updateVisibility T (timeoutFire s.vs c.id s.buckets).1 t
                (snapshot_flags (onPrivacyNodesChanged s.buckets nodes))).2.map
                  (fun e => (t, e))
           ++ (runEvents T
                { vs := (updateVisibility T (timeoutFire s.vs c.id s.buckets).1 t
                    (snapshot_flags (onPrivacyNodesChanged s.buckets nodes))).1,
                  buckets := onPrivacyNodesChanged s.buckets nodes } rest).2) := by
  simp [runEvents, h, hd]

/-- Inactive-run lemma: once the buckets are inactive and either the
container is visible with a pending timeout whose deadline is at least
`t0T`, or already hidden with no timeout, then along any remaining schedule
of inactive snapshots every hide emission is stamped at or after `t0T`, and
if the container is still visible a hide emission does occur. -/
theorem runEvents_inactive (T t0T : Nat) (rest : List (Nat × List PrivacyNodeInfo)) :
    ∀ s : RunState,
      is_visible (snapshot_flags s.buckets) = false →
      ((s.vs.vis = true ∧ ∃ c : TimeoutConn,
          s.vs.visibility_conn = some c ∧ t0T ≤ c.deadline)
        ∨ (s.vs.vis = false ∧ s.vs.visibility_conn = none)) →
      (∀ p ∈ rest, t0T ≤ p.1 + T
        ∧ is_visible (snapshot_flags (onPrivacyNodesChanged bucketsEmpty p.2)) = false) →
      (∀ q ∈ (runEvents T s rest).2,
          q.2 = Emission.SetContainerVisible false → t0T ≤ q.1)
      ∧ (s.vs.vis = true →
          ∃ τ, t0T ≤ τ
            ∧ (τ, Emission.SetContainerVisible false) ∈ (runEvents T s rest).2) := by
  induction rest with
  | nil =>
    intro s hbk hinv _
    rcases hinv with ⟨hvis, c, hconn, hdl⟩ | ⟨hvis, hconn⟩
    · rw [runEvents_nil_some T s c hconn,
        timeoutFire_hit s.vs c.id s.buckets c hconn rfl, hbk]
      dsimp only
      constructor
      · intro q hq _
        simp at hq
        rw [hq]
        exact hdl
      · intro _
        exact ⟨c.deadline, hdl, by simp⟩
    · rw [runEvents_nil_none T s hconn]
      constructor
      · intro q hq _
        simp at hq
      · intro h
        simp [hvis] at h
  | cons p rest' ih =>
    intro s hbk hinv hall
    obtain ⟨t, nodes⟩ := p
    have hhead := hall (t, nodes) (by simp)
    have htail : ∀ p ∈ rest', t0T ≤ p.1 + T
        ∧ is_visible (snapshot_flags (onPrivacyNodesChanged bucketsEmpty p.2)) = false :=
      fun p hp => hall p (by simp [hp])
    have hb2i : is_visible
        (snapshot_flags (onPrivacyNodesChanged s.buckets nodes)) = false := hhead.2
    rcases hinv with ⟨hvis, c, hconn, hdl⟩ | ⟨hvis, hconn⟩
    · by_cases hd : c.deadline ≤ t
      · rw [runEvents_cons_fire T s t nodes rest' c hconn hd,
          timeoutFire_hit s.vs c.id s.buckets c hconn rfl, hbk]
        dsimp only
        rw [updateVisibility_noop T
          ({ vis := false, visibility_conn := none, nextId := s.vs.nextId } : VisState)
          t (snapshot_flags (onPrivacyNodesChanged s.buckets nodes)) hb2i]
        dsimp only
        have ihh := ih ⟨⟨false, none, s.vs.nextId⟩, onPrivacyNodesChanged s.buckets nodes⟩
          hb2i (Or.inr ⟨rfl, rfl⟩) htail
        constructor
        · intro q hq hq2
          simp only [List.map_cons, List.map_nil, List.nil_append,
            List.singleton_append, List.mem_cons] at hq
          rcases hq with hq | hq
          · rw [hq]
            exact hdl
          · exact ihh.1 q hq hq2
        · intro _
          exact ⟨c.deadline, hdl, by simp⟩
      · rw [runEvents_cons_nofire T s t nodes rest' c hconn hd,
          updateVisibility_arm T s.vs t
            (snapshot_flags (onPrivacyNodesChanged s.buckets nodes)) hb2i hvis]
        dsimp only
        have ihh := ih ⟨⟨true, some ⟨s.vs.nextId, t + T⟩, s.vs.nextId + 1⟩,
            onPrivacyNodesChanged s.buckets nodes⟩
          hb2i
          (Or.inl ⟨rfl, ⟨s.vs.nextId, t + T⟩, rfl, hhead.1⟩) htail
        constructor
        · intro q hq hq2
          simp only [List.map_nil, List.nil_append] at hq
          exact ihh.1 q hq hq2
        · intro _
          rcases ihh.2 rfl with ⟨τ, hτ1, hτ2⟩
          exact ⟨τ, hτ1, by simpa using hτ2⟩
    · rw [runEvents_cons_none T s t nodes rest' hconn,
        updateVisibility_noop T s.vs t
          (snapshot_flags (onPrivacyNodesChanged s.buckets nodes))
          (by rw [hb2i, hvis])]
      dsimp only
      have ihh := ih ⟨s.vs, onPrivacyNodesChanged s.buckets nodes⟩
        hb2i (Or.inr ⟨hvis, hconn⟩) htail
      constructor
      · intro q hq hq2
        simp only [List.map_nil, List.nil_append] at hq
        exact ihh.1 q hq hq2
      · intro h
        simp [hvis] at h

/-- C8: along any timed schedule in which the container is visible and the
buckets active, a snapshot at `t0` turns all flags off, and every later
snapshot is also all-inactive, every `SetContainerVisible false` emission is
stamped at or after `t0 + transition_duration`, and one such emission does
occur (the debounced hide). Any timeout already pending at `t0` either fires
before the rebuild with the still-active buckets (emitting visible-true, not
a hide) or is disconnected by the recompute step, which arms the fresh
timeout with deadline `t0 + transition_duration` that governs the hide;
later inactive snapshots can only re-arm with even later deadlines. -/
theorem c8_debounce_delay (T t0 : Nat) (s0 : RunState)
    (nodes0 : List PrivacyNodeInfo) (rest : List (Nat × List PrivacyNodeInfo))
    (hvis : s0.vs.vis = true)
    (hact : is_visible (snapshot_flags s0.buckets) = true)
    (hinact0 : is_visible
      (snapshot_flags (onPrivacyNodesChanged bucketsEmpty nodes0)) = false)
    (hrest : ∀ p ∈ rest, t0 ≤ p.1
      ∧ is_visible (snapshot_flags (onPrivacyNodesChanged bucketsEmpty p.2)) = false) :
    (∀ q ∈ (runEvents T s0 ((t0, nodes0) :: rest)).2,
        q.2 = Emission.SetContainerVisible false → t0 + T ≤ q.1)
    ∧ ∃ τ, t0 + T ≤ τ
        ∧ (τ, Emission.SetContainerVisible false)
            ∈ (runEvents T s0 ((t0, nodes0) :: rest)).2 := by
  have hb2i : is_visible
      (snapshot_flags (onPrivacyNodesChanged s0.buckets nodes0)) = false := hinact0
  have htail : ∀ p ∈ rest, t0 + T ≤ p.1 + T
      ∧ is_visible (snapshot_flags (onPrivacyNodesChanged bucketsEmpty p.2)) = false :=
    fun p hp => ⟨Nat.add_le_add_right (hrest p hp).1 T, (hrest p hp).2⟩
  rcases hconn : s0.vs.visibility_conn with _ | c0
  · rw [runEvents_cons_none T s0 t0 nodes0 rest hconn,
      updateVisibility_arm T s0.vs t0
        (snapshot_flags (onPrivacyNodesChanged s0.buckets nodes0)) hb2i hvis]
    dsimp only
    have hrun := runEvents_inactive T (t0 + T) rest
      ⟨⟨true, some ⟨s0.vs.nextId, t0 + T⟩, s0.vs.nextId + 1⟩,
        onPrivacyNodesChanged s0.buckets nodes0⟩
      hb2i (Or.inl ⟨rfl, ⟨s0.vs.nextId, t0 + T⟩, rfl, Nat.le_refl _⟩) htail
    constructor
    · intro q hq hq2
      simp only [List.map_nil, List.nil_append] at hq
      exact hrun.1 q hq hq2
    · rcases hrun.2 rfl with ⟨τ, hτ1, hτ2⟩
      exact ⟨τ, hτ1, by simpa using hτ2⟩
  · by_cases hd : c0.deadline ≤ t0
    · rw [runEvents_cons_fire T s0 t0 nodes0 rest c0 hconn hd,
        timeoutFire_hit s0.vs c0.id s0.buckets c0 hconn rfl, hact]
      dsimp only
      rw [updateVisibility_arm T
        ({ vis := true, visibility_conn := none, nextId := s0.vs.nextId } : VisState)
        t0 (snapshot_flags (onPrivacyNodesChanged s0.buckets nodes0)) hb2i rfl]
      dsimp only
      have hrun := runEvents_inactive T (t0 + T) rest
        ⟨⟨true, some ⟨s0.vs.nextId, t0 + T⟩, s0.vs.nextId + 1⟩,
          onPrivacyNodesChanged s0.buckets nodes0⟩
        hb2i (Or.inl ⟨rfl, ⟨s0.vs.nextId, t0 + T⟩, rfl, Nat.le_refl _⟩) htail
      constructor
      · intro q hq hq2
        simp only [List.map_cons, List.map_nil, List.nil_append,
          List.singleton_append, List.mem_cons] at hq
        rcases hq with hq | hq
        · rw [hq] at hq2
          simp at hq2
        · exact hrun.1 q hq hq2
      · rcases hrun.2 rfl with ⟨τ, hτ1, hτ2⟩
        exact ⟨τ, hτ1, by simp [hτ2]⟩
    · rw [runEvents_cons_nofire T s0 t0 nodes0 rest c0 hconn hd,
        updateVisibility_arm T s0.vs t0
          (snapshot_flags (onPrivacyNodesChanged s0.buckets nodes0)) hb2i hvis]
      dsimp only
      have hrun := runEvents_inactive T (t0 + T) rest
        ⟨⟨true, some ⟨s0.vs.nextId, t0 + T⟩, s0.vs.nextId + 1⟩,
          onPrivacyNodesChanged s0.buckets nodes0⟩
        hb2i (Or.inl ⟨rfl, ⟨s0.vs.nextId, t0 + T⟩, rfl, Nat.le_refl _⟩) htail
      constructor
      · intro q hq hq2
        simp only [List.map_nil, List.nil_append] at hq
        exact hrun.1 q hq hq2
      · rcases hrun.2 rfl with ⟨τ, hτ1, hτ2⟩
        exact ⟨τ, hτ1, by simpa using hτ2⟩

/-- Witness for C8 on a concrete schedule: container visible with one
running screenshare node; at time 10 an empty snapshot arrives; with
`transition_duration` 5 the hide is emitted at some time at or after 15. -/
theorem c8_debounce_delay_witness :
    ∃ τ, 10 + 5 ≤ τ
      ∧ (τ, Emission.SetContainerVisible false)
          ∈ (runEvents 5 ⟨⟨true, none, 0⟩, ⟨[nodeVideoRunning], [], []⟩⟩
              [(10, [])]).2 :=
  (c8_debounce_delay 5 10 ⟨⟨true, none, 0⟩, ⟨[nodeVideoRunning], [], []⟩⟩ [] []
    rfl rfl rfl (by intro p hp; simp at hp)).2

end Privacy
